import Mathlib

/-!
Shallow embedding of the dbt-fastapi command-result normalization and
error-translation core (`src/dbt_fastapi`): the `DbtManager` argument builder,
result normalizer and outcome classifier (`dbt_manager.py`), the domain error
hierarchy (`exceptions.py`), the request-schema validators
(`schemas/request_schema.py`) and the test route (`routes/test.py`).

Python-specific behaviour (attribute lookup, truthiness, string splitting,
regular-expression scanning) is embedded explicitly so that the translated
functions mirror the source line by line.
-/

namespace DbtFastApi

/-- Python `needle in haystack` substring test on strings. -/
def pyInStr (needle hay : String) : Bool :=
  decide (needle.toList <:+: hay.toList)

/-- Python `str.split()` with no arguments: split on whitespace, dropping empties. -/
def pyStrSplit (s : String) : List String :=
  (s.split Char.isWhitespace).filter (fun t => t != "")

/-- `x.split() if x else []`, as used by `DbtManager.__init__` on the three
selection-argument fields. -/
def pySplitArgs : Option String → List String
  | none => []
  | some s => if s = "" then [] else pyStrSplit s

/-- Python truthiness of an optional string (`None` and `""` are falsy). -/
def pyTruthyStr : Option String → Bool
  | none => false
  | some s => s != ""

/-- Python `x or dflt` for an optional string (`None` and `""` fall through). -/
def pyOrStr (x : Option String) (dflt : String) : String :=
  match x with
  | none => dflt
  | some s => if s = "" then dflt else s

/-- The status values of dbt's `TestStatus` / `RunStatus` string enums as the
manager observes them (`pass`, `warn`, `fail`, `error`, `skipped`); `other`
stands for any further status string such enums may carry. -/
inductive PyTestStatus where
  | pass
  | warn
  | fail
  | error
  | skipped
  | other (s : String)
deriving DecidableEq

/-- `ResponseTestStatus` from `schemas/dbt_schema.py`, the enum that
`dbt_manager.py` imports. It has exactly four members. -/
inductive ResponseTestStatus where
  | pass
  | fail
  | error
  | skip
deriving DecidableEq

/-- The string value of each `ResponseTestStatus` member. -/
def ResponseTestStatus.value : ResponseTestStatus → String
  | .pass => "pass"
  | .fail => "fail"
  | .error => "error"
  | .skip => "skip"

/-- `DbtTestResult` from `schemas/dbt_schema.py`. The code only passes
`execution_time` through unmodified, so the float is modelled opaquely. -/
structure DbtTestResult where
  unique_id : String
  name : String
  status : ResponseTestStatus
  execution_time : Option Int
  message : Option String
  failures : Option Int
deriving DecidableEq

/-- A dbt node's `fqn` attribute: either a list of name segments or a plain
string (`get_nodes_from_result` branches on `isinstance(node.fqn, list)`). -/
inductive PyFqn where
  | ofList (segments : List String)
  | ofStr (s : String)
deriving DecidableEq

/-- The node descriptor attached to a dbt run result. `none` in a field models
a missing Python attribute (so `getattr` defaults apply); `resource_type`
stores the `str(...)` rendering of the attribute when present. -/
structure PyNodeDesc where
  unique_id : Option String
  name : Option String
  resource_type : Option String
  fqn : Option PyFqn
  depends_on_nodes : Option (List String)
  original_file_path : Option String
deriving DecidableEq

/-- One per-node run-outcome record of a dbt execution result. `node = none`
and `status = none` model absent attributes; `status = some none` models an
attribute whose value is Python `None`. -/
structure PyRunResult where
  node : Option PyNodeDesc
  status : Option (Option PyTestStatus)
  message : Option String
  failures : Option Int
  execution_time : Option Int
deriving DecidableEq

/-- A record of a `dbt list --output json` payload after a successful
`json.loads`: the keys `get_nodes_from_result` reads (`depends_on_nodes` is
`record["depends_on"].get("nodes")`). -/
structure ListRecord where
  unique_id : String
  resource_type : String
  aliasName : String
  depends_on_nodes : Option (List String)
deriving DecidableEq

/-- One raw entry of a list-verb payload: a JSON string that either decodes
to a well-formed record or fails `json.loads`. -/
inductive RawRecord where
  | decoded (record : ListRecord)
  | undecodable (raw : String)
deriving DecidableEq

/-- The shape of `dbtRunnerResult.result`: a list of JSON strings (list verb),
an execution result object carrying a `results` sequence, or some other
truthy object without a `results` attribute. -/
inductive ResultPayload where
  | strList (records : List RawRecord)
  | execution (results : List PyRunResult)
  | otherObj
deriving DecidableEq

/-- `dbtRunnerResult`: success flag, optional exception (modelled by its
`str(...)` message) and optional result payload. -/
structure DbtRunnerResult where
  success : Bool
  exception : Option String
  result : Option ResultPayload
deriving DecidableEq

/-- Python truthiness of `result.result` (an empty list is falsy; result
objects are truthy). -/
def payloadTruthy : Option ResultPayload → Bool
  | none => false
  | some (.strList records) => !records.isEmpty
  | some (.execution _) => true
  | some .otherObj => true

/-- `hasattr(result.result, "results")`. -/
def hasResultsAttr : Option ResultPayload → Bool
  | some (.execution _) => true
  | _ => false

/-- Word characters of the regex class used by the target extraction. -/
def isWordChar (c : Char) : Bool :=
  c.isAlphanum || c = '_'

/-- `re.findall` with the pattern matching `"- "` followed by a captured run
of word characters: scan left to right, collect each maximal nonempty run
after a `"- "`, and continue after the matched run (non-overlapping). The
fuel argument only makes the recursion structural; every call site passes
more fuel than the input length, so it never runs out. -/
def reFindTargets : Nat → List Char → List String
  | 0, _ => []
  | _, [] => []
  | fuel + 1, '-' :: ' ' :: rest =>
    let w := rest.takeWhile isWordChar
    if w.isEmpty then
      reFindTargets fuel (' ' :: rest)
    else
      w.asString :: reFindTargets fuel (rest.dropWhile isWordChar)
  | fuel + 1, _ :: rest => reFindTargets fuel rest

/-- The valid-target extraction `re.findall(r"- (\w+)", message)`. -/
def findValidTargets (s : String) : List String :=
  reFindTargets (s.toList.length + 1) s.toList

/-- One entry of `_extract_failed_models`: the dict holding name, path,
error message and (optionally, under a key named for syntax errors) the
first line containing a marker. -/
structure FailedModel where
  name : String
  path : String
  error_message : String
  errorLine : Option String
deriving DecidableEq

/-- The summary dict built by `get_test_summary`. -/
structure TestSummaryCounts where
  total : Nat
  passed : Nat
  warned : Nat
  failed : Nat
  errored : Nat
  skipped : Nat
deriving DecidableEq

/-- One node dict produced by `get_nodes_from_result`. In the list branch
`depends_on` can be Python `None` (it is `record["depends_on"].get("nodes")`);
in the execution branch it is always a list. -/
structure NodeData where
  unique_id : String
  fqn : Option String
  resource_type : String
  depends_on : Option (List String)
  test_result : Option DbtTestResult
deriving DecidableEq

/-- One entry of the failed/passed test breakdown built by the test and
build routes (the source stores the test message under the key `status`). -/
structure TestEntry where
  unique_id : String
  name : String
  status : Option String
  failures : Option Int
  execution_time : Option Int
deriving DecidableEq

/-- The detail body of the 422 `HTTPException` raised by the test and build
routes. -/
structure HttpDetail where
  errorKind : String
  message : String
  test_summary : TestSummaryCounts
  failed_tests : List TestEntry
  passed_tests : List TestEntry
  command : String
  target : String
deriving DecidableEq

/-- Errors the embedded code can raise: Python-level exceptions and the
domain errors of `exceptions.py`, each carrying the data its constructor
stores. -/
inductive PyExc where
  | valueError (msg : String)
  | attributeError (obj attr : String)
  | jsonDecodeError (raw : String)
  | dbtTargetError (provided : String) (valid : List String)
  | dbtCompilationError (failedModels : List FailedModel)
  | dbtExecutionError (command : List String)
  | dbtInternalError (msg : String)
  | httpException (statusCode : Nat) (detail : HttpDetail)
deriving DecidableEq

/-- The HTTP status each raised error produces at the boundary:
`DbtFastApiError` subclasses carry their `http_status_code` from
`exceptions.py` and are mapped by `exception_handlers.dbt_error_handler`;
a `ValueError` raised inside a pydantic validator becomes a FastAPI
request-validation response (422); an `HTTPException` carries its own code;
any other uncaught exception hits the generic handler (500). -/
def errorHttpStatus : PyExc → Nat
  | .valueError _ => 422
  | .attributeError _ _ => 500
  | .jsonDecodeError _ => 500
  | .dbtTargetError _ _ => 400
  | .dbtCompilationError _ => 400
  | .dbtExecutionError _ => 500
  | .dbtInternalError _ => 500
  | .httpException code _ => code

/-- `DbtManager._extract_test_result_from_run_result`. The `status_mapping`
dict has only the keys Pass, Error, Fail and Skipped, and
`.get(dbt_status, ERROR)` sends every other status (including Warn and
Python `None`) to ERROR. -/
def extractTestResultFromRunResult (rr : PyRunResult) : Option DbtTestResult :=
  match rr.node, rr.status with
  | none, _ => none
  | _, none => none
  | some node, some dbtStatus =>
    let apiStatus : ResponseTestStatus :=
      match dbtStatus with
      | some .pass => .pass
      | some .error => .error
      | some .fail => .fail
      | some .skipped => .skip
      | _ => .error
    let message :=
      if apiStatus = .fail ∨ apiStatus = .error then rr.message else none
    let failures :=
      if apiStatus = .fail then rr.failures else none
    some
      { unique_id := node.unique_id.getD "unknown"
        name := node.name.getD "unknown"
        status := apiStatus
        execution_time := rr.execution_time
        message := message
        failures := failures }

/-- The fqn extraction of the execution branch of `get_nodes_from_result`:
`hasattr` plus truthiness, then either join list segments with `"."` or keep
the string. -/
def fqnOf (node : PyNodeDesc) : Option String :=
  match node.fqn with
  | some (.ofList segments) =>
    if segments.isEmpty then none else some (String.intercalate "." segments)
  | some (.ofStr s) => if s = "" then none else some s
  | none => none

/-- The node dict built for one execution run result, including the
test-result attachment for test/build verbs on test-type nodes. -/
def executionNodeData (verb : String) (rr : PyRunResult) (node : PyNodeDesc) : NodeData :=
  let resourceType := node.resource_type.getD "None"
  { unique_id := node.unique_id.getD "unknown"
    fqn := fqnOf node
    resource_type := resourceType
    depends_on := some (node.depends_on_nodes.getD [])
    test_result :=
      if (verb = "test" ∨ verb = "build") ∧ resourceType = "test" then
        extractTestResultFromRunResult rr
      else none }

/-- The list comprehension `[json.loads(json_string) for json_string in
result.result]`: records decode left to right, and the first decode failure
raises, aborting the whole comprehension. -/
def decodeRecords : List RawRecord → Except PyExc (List ListRecord)
  | [] => Except.ok []
  | .decoded record :: rest => (decodeRecords rest).map (fun rs => record :: rs)
  | .undecodable raw :: _ => Except.error (PyExc.jsonDecodeError raw)

/-- `DbtManager.get_nodes_from_result`. The list branch decodes every record
with `json.loads` inside one list comprehension, so one decode failure
raises and aborts the whole extraction; the execution branch skips records
without a `node` attribute. -/
def getNodesFromResult (verb : String) (r : DbtRunnerResult) : Except PyExc (List NodeData) :=
  if payloadTruthy r.result then
    match r.result with
    | some (.strList records) =>
      match decodeRecords records with
      | .error e => .error e
      | .ok decodedRecords =>
        Except.ok (decodedRecords.map fun record =>
          { unique_id := record.unique_id
            fqn := some record.aliasName
            resource_type := record.resource_type
            depends_on := record.depends_on_nodes
            test_result := none })
    | some (.execution results) =>
      Except.ok (results.foldr (fun rr acc =>
        match rr.node with
        | some node => executionNodeData verb rr node :: acc
        | none => acc) [])
    | _ => Except.ok []
  else Except.ok []

/-- The per-record update of `get_test_summary`: test-type nodes bump
`total` and exactly one status bucket; unmatched statuses (including Python
`None`) fall to the catch-all and count as errored. -/
def testSummaryStep (s : TestSummaryCounts) (rr : PyRunResult) : TestSummaryCounts :=
  match rr.node with
  | none => s
  | some node =>
    if node.resource_type.getD "" = "test" then
      let s := { s with total := s.total + 1 }
      match rr.status.join with
      | some .pass => { s with passed := s.passed + 1 }
      | some .warn => { s with warned := s.warned + 1 }
      | some .skipped => { s with skipped := s.skipped + 1 }
      | some .fail => { s with failed := s.failed + 1 }
      | some .error => { s with errored := s.errored + 1 }
      | _ => { s with errored := s.errored + 1 }
    else s

/-- `DbtManager.get_test_summary`. -/
def getTestSummary (verb : String) (r : DbtRunnerResult) : Option TestSummaryCounts :=
  if ¬(verb = "test" ∨ verb = "build") then none
  else
    match r.result with
    | some (.execution results) =>
      some (results.foldl testSummaryStep ⟨0, 0, 0, 0, 0, 0⟩)
    | _ => some ⟨0, 0, 0, 0, 0, 0⟩

/-- `_extract_failed_models` on one record: only records whose status attr
equals the error status contribute; for those the code reads
`run_result.node` unguarded, so a missing node attribute raises. -/
def failedModelOf (rr : PyRunResult) : Except PyExc (Option FailedModel) :=
  if rr.status = some (some .error) then
    match rr.node with
    | none => Except.error (.attributeError "RunResult" "node")
    | some node =>
      Except.ok (some
        { name := node.name.getD "unknown"
          path := node.original_file_path.getD "unknown"
          error_message := pyOrStr rr.message "Unknown compination message"
          errorLine :=
            if pyTruthyStr rr.message then
              (((rr.message.getD "").splitOn "\n").find? fun line =>
                pyInStr "Syntax error:" line || pyInStr "Error:" line).map
                (fun line => line.trim)
            else none })
  else Except.ok none

/-- The loop of `_extract_failed_models`: records are scanned in order and
the first raised error aborts the scan. -/
def collectFailedModels : List PyRunResult → Except PyExc (List FailedModel)
  | [] => Except.ok []
  | rr :: rest =>
    match failedModelOf rr with
    | .error e => .error e
    | .ok none => collectFailedModels rest
    | .ok (some m) => (collectFailedModels rest).map (fun ms => m :: ms)

/-- `DbtManager._extract_failed_models`. -/
def extractFailedModels (r : DbtRunnerResult) : Except PyExc (List FailedModel) :=
  match r.result with
  | some (.execution results) => collectFailedModels results
  | _ => Except.ok []

/-- The classifier steps of `_validate_dbt_result` after the target-pattern
check: compilation-error scan, test/build early return, generic execution
error carrying the invocation args. -/
def validateFailureRest (verb : String) (dbtCliArgs : List String)
    (r : DbtRunnerResult) : Except PyExc Unit :=
  match
    (if verb ≠ "list" ∧ payloadTruthy r.result = true then extractFailedModels r
     else Except.ok []) with
  | .error e => .error e
  | .ok failedModels =>
    if failedModels ≠ [] then
      Except.error (.dbtCompilationError failedModels)
    else if (verb = "test" ∨ verb = "build") ∧ hasResultsAttr r.result = true then
      Except.ok ()
    else
      Except.error (.dbtExecutionError dbtCliArgs)

/-- `DbtManager._validate_dbt_result`, the outcome classifier. -/
def validateDbtResult (target verb : String) (dbtCliArgs : List String)
    (r : DbtRunnerResult) : Except PyExc Unit :=
  if r.success then Except.ok ()
  else if (r.exception.map (pyInStr "does not have a target named")).getD false then
    Except.error (.dbtTargetError target (findValidTargets (r.exception.getD "")))
  else validateFailureRest verb dbtCliArgs r

/-- `DbtManager._generate_dbt_args`. -/
def generateDbtArgs (verb target projectDir profilesDir : String)
    (selectArgs excludeArgs selectorArgs : List String) : List String :=
  let dbtArgs := [verb, "--project-dir", projectDir, "--profiles-dir", profilesDir]
  let dbtArgs := if verb = "list" then dbtArgs ++ ["--output", "json"] else dbtArgs
  let dbtArgs := if selectArgs ≠ [] then dbtArgs ++ ("--select" :: selectArgs) else dbtArgs
  let dbtArgs := if excludeArgs ≠ [] then dbtArgs ++ ("--exclude" :: excludeArgs) else dbtArgs
  let dbtArgs := if selectorArgs ≠ [] then dbtArgs ++ ("--selector" :: selectorArgs) else dbtArgs
  dbtArgs ++ ["--target", target]

/-- Lexer modes of the shell splitter. -/
inductive ShlexMode where
  | normal
  | single
  | double
deriving DecidableEq

/-- Model of Python `shlex.split` (POSIX mode): whitespace separates tokens;
a backslash escapes the next character; single quotes quote literally;
inside double quotes a backslash escapes only a double quote or a
backslash; an unterminated quote or a trailing escape raises `ValueError`.
`cur = none` means no token is in progress (quotes can open empty tokens). -/
def shlexGo : List Char → Option (List Char) → ShlexMode → Except PyExc (List String)
  | [], cur, .normal =>
    match cur with
    | none => .ok []
    | some t => .ok [t.asString]
  | [], _, _ => .error (.valueError "No closing quotation")
  | c :: rest, cur, .normal =>
    if c.isWhitespace then
      match cur with
      | none => shlexGo rest none .normal
      | some t => (shlexGo rest none .normal).map (fun ts => t.asString :: ts)
    else if c = '\\' then
      match rest with
      | [] => .error (.valueError "No escaped character")
      | d :: rest2 => shlexGo rest2 (some (cur.getD [] ++ [d])) .normal
    else if c = '\'' then shlexGo rest (some (cur.getD [])) .single
    else if c = '"' then shlexGo rest (some (cur.getD [])) .double
    else shlexGo rest (some (cur.getD [] ++ [c])) .normal
  | c :: rest, cur, .single =>
    if c = '\'' then shlexGo rest cur .normal
    else shlexGo rest (some (cur.getD [] ++ [c])) .single
  | c :: rest, cur, .double =>
    if c = '"' then shlexGo rest cur .normal
    else if c = '\\' then
      match rest with
      | [] => .error (.valueError "No escaped character")
      | d :: rest2 =>
        if d = '"' ∨ d = '\\' then shlexGo rest2 (some (cur.getD [] ++ [d])) .double
        else shlexGo rest2 (some (cur.getD [] ++ ['\\', d])) .double
    else shlexGo rest (some (cur.getD [] ++ [c])) .double
termination_by cs _ _ => cs.length
decreasing_by
  all_goals simp only [List.length_cons]
  all_goals omega

/-- `shlex.split(s)`. -/
def shlexSplit (s : String) : Except PyExc (List String) :=
  shlexGo s.toList none .normal

/-- The illegal shell-operator tokens of `DbtUnsafeRequest.sanitize_input`. -/
def illegalShellTokens : List String := ["&&", "|", ";", "$(", "<", ">"]

/-- `DbtUnsafeRequest.sanitize_input` (`schemas/request_schema.py`): reject
shell metacharacters, then `shlex.split`, then require the first token to
be `dbt` and no later argument to contain `dbt`. -/
def sanitizeUnsafeCommand (cmd : String) : Except PyExc Unit :=
  match illegalShellTokens.find? (fun t => pyInStr t cmd) with
  | some t =>
    .error (.valueError ("Illegal token \x27" ++ t ++
      "\x27 found in CLI command. Shell operators are not allowed."))
  | none =>
    match shlexSplit cmd with
    | .error e => .error e
    | .ok args =>
      if args.head? ≠ some "dbt" then
        .error (.valueError "Command must start with \x27dbt\x27")
      else if args.tail.any (fun a => pyInStr "dbt" a) then
        .error (.valueError "Multiple \x27dbt\x27 references detected in command")
      else .ok ()

/-- The common fields of `DbtCommandRequestBase`
(`schemas/request_schema.py`). -/
structure DbtCommandRequest where
  target : Option String
  select_args : Option String
  exclude_args : Option String
  selector_args : Option String
deriving DecidableEq

/-- `DbtCommandRequestBase.validate_mutually_exclusive_args`. -/
def validateMutuallyExclusiveArgs (req : DbtCommandRequest) :
    Except PyExc DbtCommandRequest :=
  if (pyTruthyStr req.select_args || pyTruthyStr req.exclude_args) &&
      pyTruthyStr req.selector_args then
    .error (.valueError
      "\x27select_args\x27 and \x27exclude_args\x27 are mutually exclusive with \x27selector_args\x27")
  else .ok req

/-- The request pipeline: pydantic validates the request model before a
route body runs, so the invocation (abstracted as `runInvocation`) is
reached only on a validated request. -/
def handleCommandRequest {α : Type} (req : DbtCommandRequest)
    (runInvocation : DbtCommandRequest → Except PyExc α) : Except PyExc α :=
  match validateMutuallyExclusiveArgs req with
  | .error e => .error e
  | .ok validated => runInvocation validated

/-- `DbtManager.execute_unsafe_dbt_command`, instrumented: the first
component records the argument list handed to `runner.invoke` (`none` when
the runner is never invoked). On an empty list `cli_command[0]` raises
`IndexError`, which the generic `except` clause feeds to
`translate_dbt_exception`, whose fallback builds the internal error. -/
def executeUnsafeDbtCommand (invoke : List String → DbtRunnerResult)
    (cliCommand : List String) :
    Option (List String) × Except PyExc DbtRunnerResult :=
  match cliCommand with
  | [] =>
    (none, .error (.dbtInternalError "Unexpected dbt error: list index out of range"))
  | first :: rest =>
    let cmd := if first = "dbt" then rest else first :: rest
    let result := invoke cmd
    if result.success then (some cmd, .ok result)
    else (some cmd, .error (.dbtExecutionError cmd))

/-- `DbtTestRequest` (`schemas/request_schema.py`): the base selection
fields plus the two boolean flags the schema defines. -/
structure DbtTestRequest where
  target : Option String
  select_args : Option String
  exclude_args : Option String
  selector_args : Option String
  store_failures : Bool
  pass_on_test_failures : Bool
deriving DecidableEq

/-- The boolean attributes a `DbtTestRequest` instance exposes; used to
model Python attribute lookup on the payload. -/
def DbtTestRequest.boolAttrs (p : DbtTestRequest) : List (String × Bool) :=
  [("store_failures", p.store_failures),
   ("pass_on_test_failures", p.pass_on_test_failures)]

/-- `getattr(payload, name)` for boolean flags: raises `AttributeError`
when the model defines no such field. -/
def DbtTestRequest.pyGetBool (p : DbtTestRequest) (name : String) : Except PyExc Bool :=
  match p.boolAttrs.find? (fun kv => kv.fst == name) with
  | some kv => .ok kv.snd
  | none => .error (.attributeError "DbtTestRequest" name)

/-- The attribute names a `DbtManager` instance exposes: its `__init__`
fields and the methods defined on the class in `dbt_manager.py`. -/
def dbtManagerAttrs : List String :=
  ["verb", "target", "select_args", "exclude_args", "selector_args",
   "profiles_yaml_dir", "dbt_project_yaml_dir", "dbt_cli_args", "runner",
   "execute_dbt_command", "async_execute_dbt_command",
   "execute_unsafe_dbt_command", "async_execute_unsafe_dbt_command",
   "get_nodes_from_result", "get_test_summary",
   "_generate_dbt_args", "_validate_dbt_result",
   "_get_selection_criteria_string", "_extract_failed_models",
   "_extract_test_result_from_run_result"]

/-- `getattr(dbt_manager, name)`: raises `AttributeError` for names not
defined on the class. -/
def pyGetManagerAttr (name : String) : Except PyExc Unit :=
  if name ∈ dbtManagerAttrs then .ok ()
  else .error (.attributeError "DbtManager" name)

/-- `DbtManager._get_selection_criteria_string`. -/
def getSelectionCriteriaString (selectArgs excludeArgs selectorArgs : List String) : String :=
  let parts : List String :=
    (if selectArgs ≠ [] then
      ["select_args: " ++ String.intercalate " " selectArgs] else []) ++
    (if excludeArgs ≠ [] then
      ["exclude_args: " ++ String.intercalate " " excludeArgs] else []) ++
    (if selectorArgs ≠ [] then
      ["selector_args: " ++ String.intercalate " " selectorArgs] else [])
  if parts ≠ [] then String.intercalate ", " parts else "no selection criteria"

/-- `DbtTestBuildMetadata` (`schemas/response_schema.py`). -/
structure DbtTestBuildMetadata where
  command : String
  dbt_command : String
  target : String
  nodes_processed : Nat
  selection_criteria : String
  has_test_failures : Bool
  has_test_errors : Bool
deriving DecidableEq

/-- `getattr(metadata, name)` for the boolean indicator fields of
`DbtTestBuildMetadata`. -/
def DbtTestBuildMetadata.pyGetBool (m : DbtTestBuildMetadata) (name : String) :
    Except PyExc Bool :=
  if name = "has_test_failures" then .ok m.has_test_failures
  else if name = "has_test_errors" then .ok m.has_test_errors
  else .error (.attributeError "DbtTestBuildMetadata" name)

/-- `DbtTestResponse` as the route returns it. -/
structure DbtTestResponse where
  success : Bool
  nodes : List NodeData
  metadata : DbtTestBuildMetadata
  test_summary : TestSummaryCounts
deriving DecidableEq

/-- The body of `run_dbt` in `routes/test.py` after request validation,
with the dbt invocation abstracted as `invoke`. Attribute lookups the
source performs under names that may not exist on the object are modelled
by explicit `pyGet` steps; everything else is read directly. -/
def runDbtTestRoute (payload : DbtTestRequest)
    (targetDefault profilesDir projectDir : String)
    (invoke : List String → DbtRunnerResult) : Except PyExc DbtTestResponse :=
  let target := pyOrStr payload.target targetDefault
  let selectArgs := pySplitArgs payload.select_args
  let excludeArgs := pySplitArgs payload.exclude_args
  let selectorArgs := pySplitArgs payload.selector_args
  let dbtCliArgs :=
    generateDbtArgs "test" target projectDir profilesDir selectArgs excludeArgs selectorArgs
  let result := invoke dbtCliArgs
  match validateDbtResult target "test" dbtCliArgs result with
  | .error e => .error e
  | .ok _ =>
    match getNodesFromResult "test" result with
    | .error e => .error e
    | .ok nodes =>
      match getTestSummary "test" result with
      | none => .error (.attributeError "NoneType" "get")
      | some testSummary =>
        match pyGetManagerAttr "get_selection_criteria_string" with
        | .error e => .error e
        | .ok _ =>
          let metadata : DbtTestBuildMetadata :=
            { command := "test"
              dbt_command := String.intercalate " " dbtCliArgs
              target := target
              nodes_processed := nodes.length
              selection_criteria :=
                getSelectionCriteriaString selectArgs excludeArgs selectorArgs
              has_test_failures := decide (testSummary.failed > 0)
              has_test_errors := decide (testSummary.errored > 0) }
          match payload.pyGetBool "fail_on_test_failures" with
          | .error e => .error e
          | .ok strictFlag =>
            match
              (if strictFlag then
                (if metadata.has_test_failures then Except.ok true
                 else metadata.pyGetBool "has_test_error")
               else Except.ok false) with
            | .error e => .error e
            | .ok raise422 =>
              if raise422 then
                match
                  (if nodes.isEmpty then Except.ok ()
                   else Except.error (.attributeError "dict" "test_result")) with
                | .error e => .error e
                | .ok _ =>
                  let errorParts :=
                    (if metadata.has_test_failures then
                      [toString testSummary.failed ++ " test(s) failed"] else []) ++
                    (if metadata.has_test_errors then
                      [toString testSummary.errored ++ " test(s) errored"] else [])
                  match pyGetManagerAttr "get_selection_criteria_string" with
                  | .error e => .error e
                  | .ok _ =>
                    Except.error (.httpException 422
                      { errorKind := "TestExecutionFailed"
                        message := String.intercalate ", " errorParts
                        test_summary := testSummary
                        failed_tests := []
                        passed_tests := []
                        command := "test"
                        target := target })
              else
                Except.ok
                  { success := result.success
                    nodes := nodes
                    metadata := metadata
                    test_summary := testSummary }

/-- Whether an error is an `HTTPException` (the only error kind the routes
raise deliberately with a chosen status code). -/
def isHttpExc : PyExc → Bool
  | .httpException _ _ => true
  | _ => false

/-- Whether a validator outcome is a rejection. -/
def isRejected {α : Type} : Except PyExc α → Bool
  | .error _ => true
  | .ok _ => false

/-- The invariant of the test summary dict: the total equals the sum of the
five status buckets. -/
def summaryInv (s : TestSummaryCounts) : Prop :=
  s.total = s.passed + s.warned + s.failed + s.errored + s.skipped

/-- The pydantic pattern of `ValidatedTargetStr`: nonempty, word chars only. -/
def validTargetStr (s : String) : Prop :=
  s ≠ "" ∧ s.toList.all isWordChar = true

/-- A run-outcome record carrying a node descriptor, used as concrete input
in witnesses. -/
def mkTestRR (uid : String) (rt : Option String)
    (st : Option (Option PyTestStatus)) (msg : Option String)
    (fl : Option Int) : PyRunResult :=
  { node := some
      { unique_id := some uid, name := some uid, resource_type := rt,
        fqn := none, depends_on_nodes := none, original_file_path := none },
    status := st, message := msg, failures := fl, execution_time := none }

section Lemmas

lemma pyBindOk {α β : Type} (x : α) (f : α → Except PyExc β) :
    (Except.ok x >>= f) = f x := rfl

lemma pyBindErr {α β : Type} (e : PyExc) (f : α → Except PyExc β) :
    ((Except.error e : Except PyExc α) >>= f) = Except.error e := rfl

lemma decodeRecords_error_shape {l : List RawRecord} {e : PyExc}
    (h : decodeRecords l = .error e) : ∃ raw, e = .jsonDecodeError raw := by
  induction l with
  | nil => simp [decodeRecords] at h
  | cons head rest ih =>
    cases head with
    | decoded record =>
      rw [decodeRecords] at h
      cases hr : decodeRecords rest with
      | ok rs => rw [hr] at h; simp [Except.map] at h
      | error e2 =>
        rw [hr] at h
        simp only [Except.map] at h
        have h2 : e2 = e := (Except.error.injEq _ _).mp h
        rw [h2] at hr
        exact ih hr
    | undecodable raw =>
      rw [decodeRecords] at h
      exact ⟨raw, (Except.error.injEq _ _).mp h.symm⟩

lemma decodeRecords_mem_undecodable {l : List RawRecord} {raw : String}
    (h : RawRecord.undecodable raw ∈ l) :
    ∃ raw2, decodeRecords l = .error (.jsonDecodeError raw2) := by
  induction l with
  | nil => simp at h
  | cons head rest ih =>
    cases head with
    | decoded record =>
      have hmem : RawRecord.undecodable raw ∈ rest := by
        rcases List.mem_cons.mp h with h1 | h1
        · exact absurd h1 (by simp)
        · exact h1
      obtain ⟨raw2, hr⟩ := ih hmem
      exact ⟨raw2, by rw [decodeRecords, hr]; rfl⟩
    | undecodable raw3 => exact ⟨raw3, by rw [decodeRecords]⟩

lemma failedModelOf_error_shape {rr : PyRunResult} {e : PyExc}
    (h : failedModelOf rr = .error e) : e = .attributeError "RunResult" "node" := by
  rw [failedModelOf] at h
  split at h
  · cases hn : rr.node with
    | none => rw [hn] at h; exact ((Except.error.injEq _ _).mp h).symm
    | some node => rw [hn] at h; simp at h
  · simp at h

lemma failedModelOf_skip {rr : PyRunResult}
    (h : rr.status ≠ some (some .error)) : failedModelOf rr = .ok none := by
  rw [failedModelOf]
  split
  · exact absurd (by assumption) h
  · rfl

lemma collectFailedModels_error_shape {l : List PyRunResult} {e : PyExc}
    (h : collectFailedModels l = .error e) :
    e = .attributeError "RunResult" "node" := by
  induction l with
  | nil => simp [collectFailedModels] at h
  | cons rr rest ih =>
    rw [collectFailedModels] at h
    cases hf : failedModelOf rr with
    | error e2 =>
      rw [hf] at h
      exact (Except.error.injEq _ _).mp h ▸ failedModelOf_error_shape hf
    | ok m =>
      rw [hf] at h
      cases m with
      | none => exact ih h
      | some fm =>
        cases hr : collectFailedModels rest with
        | ok ms => rw [hr] at h; simp [Except.map] at h
        | error e3 =>
          rw [hr] at h
          simp only [Except.map] at h
          have h2 : e3 = e := (Except.error.injEq _ _).mp h
          rw [h2] at hr
          exact ih hr

lemma collectFailedModels_no_error {l : List PyRunResult}
    (h : ∀ rr ∈ l, rr.status ≠ some (some .error)) :
    collectFailedModels l = .ok [] := by
  induction l with
  | nil => rfl
  | cons rr rest ih =>
    rw [collectFailedModels, failedModelOf_skip (h rr (by simp))]
    exact ih fun r hr => h r (by simp [hr])

lemma extractFailedModels_error_shape {r : DbtRunnerResult} {e : PyExc}
    (h : extractFailedModels r = .error e) :
    e = .attributeError "RunResult" "node" := by
  rw [extractFailedModels] at h
  split at h
  · exact collectFailedModels_error_shape h
  · simp at h

lemma getNodesFromResult_error_shape {verb : String} {r : DbtRunnerResult} {e : PyExc}
    (h : getNodesFromResult verb r = .error e) : ∃ raw, e = .jsonDecodeError raw := by
  rw [getNodesFromResult] at h
  split at h
  · split at h
    · rename_i records heq
      split at h
      · rename_i e2 hd
        have h2 : e2 = e := (Except.error.injEq _ _).mp h
        rw [h2] at hd
        exact decodeRecords_error_shape hd
      · simp at h
    · simp at h
    · simp at h
  · simp at h

lemma validateFailureRest_not_http {verb : String} {args : List String}
    {r : DbtRunnerResult} {e : PyExc}
    (h : validateFailureRest verb args r = .error e) : isHttpExc e = false := by
  rw [validateFailureRest] at h
  split at h
  · rename_i e2 hx
    have h2 : e2 = e := (Except.error.injEq _ _).mp h
    split at hx
    · rw [← h2, extractFailedModels_error_shape hx]; rfl
    · simp at hx
  · split at h
    · rw [← (Except.error.injEq _ _).mp h]; rfl
    · split at h
      · simp at h
      · rw [← (Except.error.injEq _ _).mp h]; rfl

lemma validateDbtResult_not_http {target verb : String} {args : List String}
    {r : DbtRunnerResult} {e : PyExc}
    (h : validateDbtResult target verb args r = .error e) : isHttpExc e = false := by
  rw [validateDbtResult] at h
  split at h
  · simp at h
  · split at h
    · rw [← (Except.error.injEq _ _).mp h]; rfl
    · exact validateFailureRest_not_http h

lemma getTestSummary_test_isSome (r : DbtRunnerResult) :
    ∃ s, getTestSummary "test" r = some s := by
  rw [getTestSummary, if_neg (by simp)]
  split
  · exact ⟨_, rfl⟩
  · exact ⟨_, rfl⟩

lemma testSummaryStep_inv {s : TestSummaryCounts} (rr : PyRunResult)
    (h : summaryInv s) : summaryInv (testSummaryStep s rr) := by
  rw [testSummaryStep]
  cases rr.node with
  | none => exact h
  | some node =>
    simp only
    split
    · rcases hj : rr.status.join with _ | st
      · simpa [summaryInv] using by rw [summaryInv] at h; omega
      · cases st <;>
          simpa [summaryInv] using by rw [summaryInv] at h; omega
    · exact h

lemma foldl_testSummaryStep_inv (l : List PyRunResult) {s : TestSummaryCounts}
    (h : summaryInv s) : summaryInv (l.foldl testSummaryStep s) := by
  induction l generalizing s with
  | nil => exact h
  | cons rr rest ih => exact ih (testSummaryStep_inv rr h)

lemma executeUnsafe_fst (invoke : List String → DbtRunnerResult)
    (first : String) (rest : List String) :
    (executeUnsafeDbtCommand invoke (first :: rest)).fst =
      some (if first = "dbt" then rest else first :: rest) := by
  cases h2 : (invoke (if first = "dbt" then rest else first :: rest)).success <;>
    simp [executeUnsafeDbtCommand, h2]

lemma ifAppend {c : Prop} [Decidable c] (X Y : List String) :
    (if c then X ++ Y else X) = X ++ (if c then Y else []) := by
  split <;> simp

lemma getLastTwo_append (l : List String) (a b : String) :
    (l ++ [a, b]).getLast? = some b ∧ (l ++ [a, b]).dropLast = l ++ [a] := by
  have h2 : l ++ [a, b] = (l ++ [a]) ++ [b] := by simp
  rw [h2]
  exact ⟨List.getLast?_concat _, List.dropLast_concat⟩

lemma count_ifCons (c : Prop) [Decidable c] (flag tok : String)
    (toks : List String) (h1 : flag ≠ tok) (h2 : flag ∉ toks) :
    (if c then tok :: toks else []).count flag = 0 := by
  split
  · exact List.count_eq_zero.mpr (by simp [h1, h2])
  · rfl

end Lemmas

/-- C1: for every failed invocation result whose exception message contains
the target-not-found marker, the outcome classifier raises `DbtTargetError`
carrying the provided target name and the valid target names extracted from
the message, mapped to HTTP 400; on the scenario message the extraction
yields dev and prod. -/
theorem claim_C1_target_error (target verb : String) (args : List String)
    (r : DbtRunnerResult) (e : String)
    (hs : r.success = false) (he : r.exception = some e)
    (hm : pyInStr "does not have a target named" e = true) :
    validateDbtResult target verb args r =
      .error (.dbtTargetError target (findValidTargets e)) ∧
    errorHttpStatus (.dbtTargetError target (findValidTargets e)) = 400 ∧
    findValidTargets
      "...does not have a target named \x27bad\x27... - dev\n- prod" =
      ["dev", "prod"] := by
  refine ⟨?_, rfl, by decide⟩
  simp [validateDbtResult, hs, he, hm]

/-- Witness for C1 at the scenario input: the provided target is bad and the
extracted valid targets are dev and prod. -/
theorem claim_C1_target_error_witness :
    (⟨false,
      some "...does not have a target named \x27bad\x27... - dev\n- prod",
      none⟩ : DbtRunnerResult).success = false ∧
    validateDbtResult "bad" "run" ["run", "--target", "bad"]
      ⟨false,
       some "...does not have a target named \x27bad\x27... - dev\n- prod",
       none⟩ =
      .error (.dbtTargetError "bad" ["dev", "prod"]) :=
  ⟨rfl,
    ((claim_C1_target_error "bad" "run" ["run", "--target", "bad"]
      ⟨false,
       some "...does not have a target named \x27bad\x27... - dev\n- prod",
       none⟩
      "...does not have a target named \x27bad\x27... - dev\n- prod"
      rfl rfl (by decide)).1).trans
    (by rw [show findValidTargets
        "...does not have a target named \x27bad\x27... - dev\n- prod" =
        ["dev", "prod"] from by decide])⟩

/-- C4: for every raw result of a test or build verb the computed summary
exists and satisfies total = passed + warned + failed + errored + skipped,
each test-type node bumping total and exactly one bucket. -/
theorem claim_C4_summary_invariant (verb : String) (r : DbtRunnerResult)
    (h : verb = "test" ∨ verb = "build") :
    ∃ s, getTestSummary verb r = some s ∧ summaryInv s := by
  rw [getTestSummary, if_neg (not_not_intro h)]
  split
  · exact ⟨_, rfl, foldl_testSummaryStep_inv _ rfl⟩
  · exact ⟨_, rfl, rfl⟩

/-- Witness for C4 on a concrete test run with one pass, one fail, one
error and one record of unknown status. -/
theorem claim_C4_summary_invariant_witness :
    ("test" = "test" ∨ "test" = "build") ∧
    ∃ s, getTestSummary "test"
      ⟨false, none, some (.execution
        [mkTestRR "t1" (some "test") (some (some .pass)) none none,
         mkTestRR "t2" (some "test") (some (some .fail)) (some "boom") (some 3),
         mkTestRR "t3" (some "test") none none none])⟩ = some s ∧
      summaryInv s :=
  ⟨Or.inl rfl, claim_C4_summary_invariant "test" _ (Or.inl rfl)⟩

/-- C5 as stated is false at a concrete input: a list payload with one
undecodable record followed by one well-formed record does not yield the
well-formed record's node; the whole extraction aborts with a decode
error. -/
theorem claim_C5_counterexample :
    getNodesFromResult "list"
      ⟨true, none, some (.strList
        [.undecodable "not json",
         .decoded ⟨"model.proj.a", "model", "a", some []⟩])⟩ =
      .error (.jsonDecodeError "not json") ∧
    ∀ nodes, getNodesFromResult "list"
      ⟨true, none, some (.strList
        [.undecodable "not json",
         .decoded ⟨"model.proj.a", "model", "a", some []⟩])⟩ ≠ .ok nodes := by
  refine ⟨rfl, fun nodes hn => ?_⟩
  rw [show getNodesFromResult "list"
      ⟨true, none, some (.strList
        [.undecodable "not json",
         .decoded ⟨"model.proj.a", "model", "a", some []⟩])⟩ =
      .error (.jsonDecodeError "not json") from rfl] at hn
  exact Except.noConfusion hn

/-- C5 amended: for every list-verb payload containing at least one
undecodable record, node extraction aborts with a decode error — the
undecodable record is not skipped, no nodes are returned and no node with
guessed defaults is produced. -/
theorem claim_C5_decode_failure_aborts (records : List RawRecord) (raw : String)
    (s : Bool) (exc : Option String)
    (h : RawRecord.undecodable raw ∈ records) :
    ∃ raw2, getNodesFromResult "list" ⟨s, exc, some (.strList records)⟩ =
      .error (.jsonDecodeError raw2) := by
  obtain ⟨raw2, hd⟩ := decodeRecords_mem_undecodable h
  cases records with
  | nil => simp at h
  | cons a l =>
    exact ⟨raw2, by simp [getNodesFromResult, payloadTruthy, hd]⟩

/-- Witness for C5 amended at a concrete two-record payload. -/
theorem claim_C5_decode_failure_aborts_witness :
    RawRecord.undecodable "oops" ∈
      ([.undecodable "oops", .decoded ⟨"m", "model", "a", none⟩] :
        List RawRecord) ∧
    ∃ raw2, getNodesFromResult "list"
      ⟨true, none, some (.strList
        [.undecodable "oops", .decoded ⟨"m", "model", "a", none⟩])⟩ =
      .error (.jsonDecodeError raw2) :=
  ⟨by decide,
   claim_C5_decode_failure_aborts
     [.undecodable "oops", .decoded ⟨"m", "model", "a", none⟩]
     "oops" true none (by decide)⟩

/-- C7 as stated is false at a concrete input: for the test verb with a
failed result carrying an (empty) per-node results sequence, no marker and
no error-status records, the classifier returns success instead of raising
the generic `ExecutionError`. -/
theorem claim_C7_counterexample :
    validateDbtResult "dev" "test" ["test", "--target", "dev"]
      ⟨false, none, some (.execution [])⟩ = .ok () ∧
    ∀ args2, validateDbtResult "dev" "test" ["test", "--target", "dev"]
      ⟨false, none, some (.execution [])⟩ ≠
      .error (.dbtExecutionError args2) := by
  refine ⟨rfl, fun args2 hc => ?_⟩
  rw [show validateDbtResult "dev" "test" ["test", "--target", "dev"]
      ⟨false, none, some (.execution [])⟩ = .ok () from rfl] at hc
  exact Except.noConfusion hc

/-- C7 amended: a failed result with no target marker and no per-node
error-status records makes the classifier raise the generic
`DbtExecutionError` carrying the full invocation argument list, at
HTTP 500 — except when the verb is test or build and the payload carries a
per-node results sequence, in which case the classifier returns success. -/
theorem claim_C7_execution_error (target verb : String) (args : List String)
    (r : DbtRunnerResult)
    (hs : r.success = false)
    (hm : ∀ e, r.exception = some e →
      pyInStr "does not have a target named" e = false)
    (hnoerr : ∀ results, r.result = some (.execution results) →
      ∀ rr ∈ results, rr.status ≠ some (some .error))
    (hnottb : ¬((verb = "test" ∨ verb = "build") ∧ hasResultsAttr r.result = true)) :
    validateDbtResult target verb args r = .error (.dbtExecutionError args) ∧
    errorHttpStatus (.dbtExecutionError args) = 500 := by
  refine ⟨?_, rfl⟩
  rw [validateDbtResult, if_neg (by simp [hs]), if_neg ?hmarker]
  case hmarker =>
    cases hexc : r.exception with
    | none => simp
    | some e => simp [hm e hexc]
  rw [validateFailureRest]
  have hfm : (if verb ≠ "list" ∧ payloadTruthy r.result = true then
      extractFailedModels r else Except.ok []) = Except.ok [] := by
    split
    · rw [extractFailedModels]
      split
      · rename_i results heq
        exact collectFailedModels_no_error (hnoerr results heq)
      · rfl
    · rfl
  simp only [hfm]
  rw [if_neg (by simp), if_neg hnottb]

/-- Witness for C7 amended: a failed run-verb result with an unrelated
exception message and an empty results sequence yields the generic
execution error carrying the args. -/
theorem claim_C7_execution_error_witness :
    (⟨false, some "something else went wrong", some (.execution [])⟩ :
      DbtRunnerResult).success = false ∧
    validateDbtResult "dev" "run" ["run", "--target", "dev"]
      ⟨false, some "something else went wrong", some (.execution [])⟩ =
      .error (.dbtExecutionError ["run", "--target", "dev"]) :=
  ⟨rfl,
   (claim_C7_execution_error "dev" "run" ["run", "--target", "dev"]
     ⟨false, some "something else went wrong", some (.execution [])⟩
     rfl
     (fun e he => by cases he; decide)
     (fun results hres => by cases hres; intro rr hrr; simp at hrr)
     (by intro hcontra; rcases hcontra with ⟨hv, _⟩; rcases hv with hv | hv <;>
       exact absurd hv (by decide))).1⟩

/-- C8: for every command request in which a (truthy) select or exclude
filter is set together with a selector, request validation fails with the
mutual-exclusivity error before the invocation runs, whatever the
invocation would return. -/
theorem claim_C8_mutual_exclusivity {α : Type} (req : DbtCommandRequest)
    (runInvocation : DbtCommandRequest → Except PyExc α)
    (hsel : pyTruthyStr req.select_args = true ∨
      pyTruthyStr req.exclude_args = true)
    (hselector : pyTruthyStr req.selector_args = true) :
    handleCommandRequest req runInvocation =
      .error (.valueError
        "\x27select_args\x27 and \x27exclude_args\x27 are mutually exclusive with \x27selector_args\x27") := by
  rw [handleCommandRequest, validateMutuallyExclusiveArgs, if_pos ?c]
  case c =>
    rcases hsel with h | h <;> simp [h, hselector]

/-- Witness for C8 at a concrete request with both a select filter and a
selector set. -/
theorem claim_C8_mutual_exclusivity_witness :
    pyTruthyStr (⟨some "dev", some "model_x", none, some "nightly"⟩ :
      DbtCommandRequest).select_args = true ∧
    handleCommandRequest ⟨some "dev", some "model_x", none, some "nightly"⟩
      (fun _ => Except.ok (0 : Nat)) =
      .error (.valueError
        "\x27select_args\x27 and \x27exclude_args\x27 are mutually exclusive with \x27selector_args\x27") :=
  ⟨by decide,
   claim_C8_mutual_exclusivity ⟨some "dev", some "model_x", none, some "nightly"⟩
     (fun _ => Except.ok (0 : Nat)) (Or.inl (by decide)) (by decide)⟩

/-- C10 as stated is false at the empty argument list: the code raises an
index error translated to the internal-error fallback and never invokes the
runner, rather than invoking it with the unchanged (empty) list. -/
theorem claim_C10_counterexample :
    (executeUnsafeDbtCommand (fun _ => ⟨true, none, none⟩) []).fst = none ∧
    (executeUnsafeDbtCommand (fun _ => ⟨true, none, none⟩) []).snd =
      .error (.dbtInternalError "Unexpected dbt error: list index out of range") ∧
    (none : Option (List String)) ≠ some ([] : List String) :=
  ⟨rfl, rfl, by simp⟩

/-- C10 amended: for every nonempty argument list, the runner is invoked
with the first element removed when it is the token dbt and with the list
unchanged otherwise; the remaining elements are never reordered or
altered. -/
theorem claim_C10_strip_leading_dbt (invoke : List String → DbtRunnerResult)
    (cli : List String) (h : cli ≠ []) :
    ∃ passed, (executeUnsafeDbtCommand invoke cli).fst = some passed ∧
      ((cli.head? = some "dbt" ∧ passed = cli.tail) ∨
       (cli.head? ≠ some "dbt" ∧ passed = cli)) := by
  cases cli with
  | nil => exact absurd rfl h
  | cons first rest =>
    refine ⟨if first = "dbt" then rest else first :: rest,
      executeUnsafe_fst invoke first rest, ?_⟩
    by_cases hf : first = "dbt"
    · exact Or.inl ⟨by simp [hf], by simp [hf]⟩
    · exact Or.inr ⟨by simp [hf], by simp [hf]⟩

/-- C6 as stated is false at a concrete validated request: a select token
equal to the project-dir flag makes the built argument list contain that
flag twice. -/
theorem claim_C6_counterexample :
    (generateDbtArgs "run" "dev" "/proj" "/prof" ["--project-dir"] [] []).count
      "--project-dir" = 2 ∧ (2 : Nat) ≠ 1 := by
  exact ⟨rfl, by decide⟩

/-- C6 amended: for every validated request whose selection token lists do
not contain the directory flag tokens (and whose resolved directories are
not those tokens), the built argument list places the verb first, ends with
the target flag followed by the target value, contains the project-dir and
profiles-dir flags exactly once each, and for the list verb includes the
JSON output-mode flag. -/
theorem claim_C6_invocation_args (verb target projectDir profilesDir : String)
    (selectArgs excludeArgs selectorArgs : List String)
    (hv : verb ∈ (["run", "test", "build", "list", "compile"] : List String))
    (htgt : validTargetStr target)
    (hpd : projectDir ≠ "--project-dir" ∧ projectDir ≠ "--profiles-dir")
    (hfd : profilesDir ≠ "--project-dir" ∧ profilesDir ≠ "--profiles-dir")
    (htok1 : "--project-dir" ∉ selectArgs ++ excludeArgs ++ selectorArgs)
    (htok2 : "--profiles-dir" ∉ selectArgs ++ excludeArgs ++ selectorArgs) :
    (generateDbtArgs verb target projectDir profilesDir selectArgs excludeArgs
      selectorArgs).head? = some verb ∧
    (generateDbtArgs verb target projectDir profilesDir selectArgs excludeArgs
      selectorArgs).count "--project-dir" = 1 ∧
    (generateDbtArgs verb target projectDir profilesDir selectArgs excludeArgs
      selectorArgs).count "--profiles-dir" = 1 ∧
    (generateDbtArgs verb target projectDir profilesDir selectArgs excludeArgs
      selectorArgs).getLast? = some target ∧
    (generateDbtArgs verb target projectDir profilesDir selectArgs excludeArgs
      selectorArgs).dropLast.getLast? = some "--target" ∧
    (verb = "list" →
      "--output" ∈ generateDbtArgs verb target projectDir profilesDir
        selectArgs excludeArgs selectorArgs ∧
      "json" ∈ generateDbtArgs verb target projectDir profilesDir
        selectArgs excludeArgs selectorArgs) := by
  have hL : generateDbtArgs verb target projectDir profilesDir selectArgs
      excludeArgs selectorArgs =
      [verb, "--project-dir", projectDir, "--profiles-dir", profilesDir] ++
      ((if verb = "list" then ["--output", "json"] else []) ++
       ((if selectArgs ≠ [] then "--select" :: selectArgs else []) ++
        ((if excludeArgs ≠ [] then "--exclude" :: excludeArgs else []) ++
         ((if selectorArgs ≠ [] then "--selector" :: selectorArgs else []) ++
          ["--target", target])))) := by
    simp only [generateDbtArgs, ifAppend]
    simp only [List.append_assoc]
  have hv' : verb = "run" ∨ verb = "test" ∨ verb = "build" ∨ verb = "list" ∨
      verb = "compile" := by simpa using hv
  have hverb1 : "--project-dir" ≠ verb := by
    rcases hv' with rfl | rfl | rfl | rfl | rfl <;> decide
  have hverb2 : "--profiles-dir" ≠ verb := by
    rcases hv' with rfl | rfl | rfl | rfl | rfl <;> decide
  have htgt1 : "--project-dir" ≠ target := by
    intro heq
    rw [← heq] at htgt
    exact absurd htgt.2 (by decide)
  have htgt2 : "--profiles-dir" ≠ target := by
    intro heq
    rw [← heq] at htgt
    exact absurd htgt.2 (by decide)
  have hpd1 : "--project-dir" ≠ projectDir := fun heq => hpd.1 heq.symm
  have hpd2 : "--profiles-dir" ≠ projectDir := fun heq => hpd.2 heq.symm
  have hfd1 : "--project-dir" ≠ profilesDir := fun heq => hfd.1 heq.symm
  have hfd2 : "--profiles-dir" ≠ profilesDir := fun heq => hfd.2 heq.symm
  have hsel1 : "--project-dir" ∉ selectArgs := fun hm => htok1 (by simp [hm])
  have hexc1 : "--project-dir" ∉ excludeArgs := fun hm => htok1 (by simp [hm])
  have hslr1 : "--project-dir" ∉ selectorArgs := fun hm => htok1 (by simp [hm])
  have hsel2 : "--profiles-dir" ∉ selectArgs := fun hm => htok2 (by simp [hm])
  have hexc2 : "--profiles-dir" ∉ excludeArgs := fun hm => htok2 (by simp [hm])
  have hslr2 : "--profiles-dir" ∉ selectorArgs := fun hm => htok2 (by simp [hm])
  refine ⟨by rw [hL]; rfl, ?_, ?_, ?_, ?_, ?_⟩
  · rw [hL]
    simp only [List.count_append]
    rw [show ([verb, "--project-dir", projectDir, "--profiles-dir",
        profilesDir] : List String).count "--project-dir" = 1 from by
      simp [List.count_cons, hverb1, hpd1, hfd1]]
    rw [show (if verb = "list" then ["--output", "json"] else []).count
        "--project-dir" = 0 from by split <;> rfl]
    rw [count_ifCons _ _ _ _ (by decide) hsel1]
    rw [count_ifCons _ _ _ _ (by decide) hexc1]
    rw [count_ifCons _ _ _ _ (by decide) hslr1]
    rw [show (["--target", target] : List String).count "--project-dir" = 0
      from List.count_eq_zero.mpr (by simp [htgt1])]
  · rw [hL]
    simp only [List.count_append]
    rw [show ([verb, "--project-dir", projectDir, "--profiles-dir",
        profilesDir] : List String).count "--profiles-dir" = 1 from by
      simp [List.count_cons, hverb2, hpd2, hfd2]]
    rw [show (if verb = "list" then ["--output", "json"] else []).count
        "--profiles-dir" = 0 from by split <;> rfl]
    rw [count_ifCons _ _ _ _ (by decide) hsel2]
    rw [count_ifCons _ _ _ _ (by decide) hexc2]
    rw [count_ifCons _ _ _ _ (by decide) hslr2]
    rw [show (["--target", target] : List String).count "--profiles-dir" = 0
      from List.count_eq_zero.mpr (by simp [htgt2])]
  · have hL2 := hL
    simp only [← List.append_assoc] at hL2
    rw [hL2]
    exact (getLastTwo_append _ "--target" target).1
  · have hL2 := hL
    simp only [← List.append_assoc] at hL2
    rw [hL2, (getLastTwo_append _ "--target" target).2,
      List.getLast?_concat]
  · intro hvl
    subst hvl
    rw [hL, if_pos rfl]
    exact ⟨List.mem_append.mpr (Or.inr (List.mem_append.mpr
        (Or.inl (by decide)))),
      List.mem_append.mpr (Or.inr (List.mem_append.mpr (Or.inl (by decide))))⟩

/-- Witness for C6 amended at a concrete validated list request. -/
theorem claim_C6_invocation_args_witness :
    ("list" ∈ (["run", "test", "build", "list", "compile"] : List String)) ∧
    ((generateDbtArgs "list" "dev" "/proj" "/prof" ["model_a"] []
      []).head? = some "list" ∧
    (generateDbtArgs "list" "dev" "/proj" "/prof" ["model_a"] []
      []).count "--project-dir" = 1 ∧
    (generateDbtArgs "list" "dev" "/proj" "/prof" ["model_a"] []
      []).count "--profiles-dir" = 1 ∧
    (generateDbtArgs "list" "dev" "/proj" "/prof" ["model_a"] []
      []).getLast? = some "dev" ∧
    (generateDbtArgs "list" "dev" "/proj" "/prof" ["model_a"] []
      []).dropLast.getLast? = some "--target" ∧
    ("list" = "list" →
      "--output" ∈ generateDbtArgs "list" "dev" "/proj" "/prof" ["model_a"]
        [] [] ∧
      "json" ∈ generateDbtArgs "list" "dev" "/proj" "/prof" ["model_a"]
        [] [])) :=
  ⟨by decide,
   claim_C6_invocation_args "list" "dev" "/proj" "/prof" ["model_a"] [] []
     (by decide) ⟨by decide, by decide⟩ ⟨by decide, by decide⟩
     ⟨by decide, by decide⟩ (by decide) (by decide)⟩

/-- C3 as stated is false at a concrete input: a warn-status test record is
not mapped to a warn value — the response enum the manager uses has no warn
member at all, and the record maps to error (with the warn message
attached). -/
theorem claim_C3_counterexample :
    ((extractTestResultFromRunResult
        (mkTestRR "t" (some "test") (some (some .warn)) (some "warn message")
          (some 2))).map fun tr => tr.status.value) = some "error" ∧
    some "error" ≠ some "warn" ∧
    ∀ s : ResponseTestStatus, s.value ≠ "warn" := by
  refine ⟨rfl, by simp, fun s => by cases s <;> decide⟩

/-- C3 amended: the extracted test result maps the underlying status onto
the four values pass, fail, error and skip — warn, unrecognized statuses
and a Python None status all map to error — and it attaches the message
only when the mapped status is fail or error and the failures count only
when the mapped status is fail. -/
theorem claim_C3_test_result_mapping (rr : PyRunResult) (node : PyNodeDesc)
    (v : Option PyTestStatus)
    (hn : rr.node = some node) (hstat : rr.status = some v) :
    ∃ tr, extractTestResultFromRunResult rr = some tr ∧
      tr.status = (match v with
        | some .pass => ResponseTestStatus.pass
        | some .fail => ResponseTestStatus.fail
        | some .error => ResponseTestStatus.error
        | some .skipped => ResponseTestStatus.skip
        | _ => ResponseTestStatus.error) ∧
      ((tr.status = .fail ∨ tr.status = .error) → tr.message = rr.message) ∧
      (¬(tr.status = .fail ∨ tr.status = .error) → tr.message = none) ∧
      (tr.status = .fail → tr.failures = rr.failures) ∧
      (tr.status ≠ .fail → tr.failures = none) := by
  rcases v with _ | st
  · simp only [extractTestResultFromRunResult, hn, hstat]
    refine ⟨_, rfl, ?_, ?_, ?_, ?_, ?_⟩ <;> simp
  · cases st <;>
      (simp only [extractTestResultFromRunResult, hn, hstat]
       refine ⟨_, rfl, ?_, ?_, ?_, ?_, ?_⟩ <;> simp)

/-- Witness for C3 amended at a concrete failing test record: status fail,
message and failures attached. -/
theorem claim_C3_test_result_mapping_witness :
    (mkTestRR "t" (some "test") (some (some .fail)) (some "boom")
      (some 3)).status = some (some .fail) ∧
    ∃ tr, extractTestResultFromRunResult
      (mkTestRR "t" (some "test") (some (some .fail)) (some "boom") (some 3)) =
        some tr ∧
      tr.status = (match (some PyTestStatus.fail : Option PyTestStatus) with
        | some .pass => ResponseTestStatus.pass
        | some .fail => ResponseTestStatus.fail
        | some .error => ResponseTestStatus.error
        | some .skipped => ResponseTestStatus.skip
        | _ => ResponseTestStatus.error) ∧
      ((tr.status = .fail ∨ tr.status = .error) →
        tr.message = (mkTestRR "t" (some "test") (some (some .fail))
          (some "boom") (some 3)).message) ∧
      (¬(tr.status = .fail ∨ tr.status = .error) → tr.message = none) ∧
      (tr.status = .fail →
        tr.failures = (mkTestRR "t" (some "test") (some (some .fail))
          (some "boom") (some 3)).failures) ∧
      (tr.status ≠ .fail → tr.failures = none) :=
  ⟨rfl, claim_C3_test_result_mapping _ _ (some .fail) rfl rfl⟩

/-- C9: the unsafe-command validator rejects every string that contains one
of the shell metacharacter tokens, or whose shell-split token list does not
begin with the token dbt, or that has dbt occurring in a later argument;
consequently every input containing the scenario substring is rejected. -/
theorem claim_C9_sanitization (cmd : String)
    (h : (∃ t ∈ illegalShellTokens, pyInStr t cmd = true) ∨
      (∀ args, shlexSplit cmd = .ok args → args.head? ≠ some "dbt") ∨
      (∃ args a, shlexSplit cmd = .ok args ∧ a ∈ args.tail ∧
        pyInStr "dbt" a = true)) :
    isRejected (sanitizeUnsafeCommand cmd) = true ∧
    ∀ cmd2, pyInStr "; rm -rf /" cmd2 = true →
      isRejected (sanitizeUnsafeCommand cmd2) = true := by
  have key : ∀ c : String,
      ((∃ t ∈ illegalShellTokens, pyInStr t c = true) ∨
        (∀ args, shlexSplit c = .ok args → args.head? ≠ some "dbt") ∨
        (∃ args a, shlexSplit c = .ok args ∧ a ∈ args.tail ∧
          pyInStr "dbt" a = true)) →
      isRejected (sanitizeUnsafeCommand c) = true := by
    intro c hc
    cases hfind : illegalShellTokens.find? (fun t => pyInStr t c) with
    | some t => simp [sanitizeUnsafeCommand, hfind, isRejected]
    | none =>
      have hno : ∀ t ∈ illegalShellTokens, ¬(pyInStr t c = true) := by
        intro t ht
        simpa using List.find?_eq_none.mp hfind t ht
      rcases hc with ⟨t, ht, hin⟩ | hhead | ⟨args, a, hok, hmem, hin⟩
      · exact absurd hin (hno t ht)
      · cases hsplit : shlexSplit c with
        | error e => simp [sanitizeUnsafeCommand, hfind, hsplit, isRejected]
        | ok args =>
          simp only [sanitizeUnsafeCommand, hfind, hsplit]
          rw [if_pos (hhead args hsplit)]
          rfl
      · simp only [sanitizeUnsafeCommand, hfind, hok]
        by_cases hh : args.head? ≠ some "dbt"
        · rw [if_pos hh]; rfl
        · rw [if_neg hh, if_pos (List.any_eq_true.mpr ⟨a, hmem, hin⟩)]
          rfl
  refine ⟨key cmd h, fun cmd2 hin2 => ?_⟩
  refine key cmd2 (Or.inl ⟨";", by decide, ?_⟩)
  have h1 : (";".toList) <:+: "; rm -rf /".toList := by decide
  have h2 : ("; rm -rf /".toList) <:+: cmd2.toList := of_decide_eq_true hin2
  exact decide_eq_true (h1.trans h2)

/-- Witness for C9 at the scenario input: the command containing the
semicolon injection is rejected. -/
theorem claim_C9_sanitization_witness :
    pyInStr ";" "dbt run; rm -rf /" = true ∧
    isRejected (sanitizeUnsafeCommand "dbt run; rm -rf /") = true :=
  ⟨by decide,
   (claim_C9_sanitization "dbt run; rm -rf /"
     (Or.inl ⟨";", by decide, by decide⟩)).1⟩

/-- C2 is unreachable in the code (code bug): every request to the test
endpoint fails with an attribute error before the strict-flag check — the
route calls `get_selection_criteria_string`, but the manager only defines
`_get_selection_criteria_string` (and the route would next read
`payload.fail_on_test_failures`, while the schema defines
`pass_on_test_failures`) — so no request ever produces the specified 422
breakdown, nor any 2xx response; at the concrete failing input the error is
exactly the attribute error. -/
theorem claim_C2_strict_mode_unreachable :
    (∀ (payload : DbtTestRequest) (targetDefault profilesDir projectDir : String)
      (invoke : List String → DbtRunnerResult),
      ∃ e, runDbtTestRoute payload targetDefault profilesDir projectDir invoke =
        .error e ∧ isHttpExc e = false) ∧
    runDbtTestRoute ⟨none, none, none, none, false, false⟩ "dev" "/profiles"
      "/project"
      (fun _ => ⟨true, none, some (.execution
        [mkTestRR "t2" (some "test") (some (some .fail)) (some "boom")
          (some 3)])⟩) =
      .error (.attributeError "DbtManager" "get_selection_criteria_string") := by
  constructor
  · intro payload td pd fd invoke
    simp only [runDbtTestRoute]
    split
    · rename_i e hv
      exact ⟨e, rfl, validateDbtResult_not_http hv⟩
    · split
      · rename_i e hn
        obtain ⟨raw, rfl⟩ := getNodesFromResult_error_shape hn
        exact ⟨_, rfl, rfl⟩
      · split
        · exact ⟨_, rfl, rfl⟩
        · split
          · rename_i e hattr
            refine ⟨e, rfl, ?_⟩
            have hval : pyGetManagerAttr "get_selection_criteria_string" =
              .error (.attributeError "DbtManager"
                "get_selection_criteria_string") := rfl
            rw [hval] at hattr
            rw [((Except.error.injEq _ _).mp hattr).symm]
            rfl
          · rename_i hattr
            have hval : pyGetManagerAttr "get_selection_criteria_string" =
              .error (.attributeError "DbtManager"
                "get_selection_criteria_string") := rfl
            rw [hval] at hattr
            exact Except.noConfusion hattr
  · rfl

/-- Witness for C10 amended at a concrete two-element command. -/
theorem claim_C10_strip_leading_dbt_witness :
    (["dbt", "run"] : List String) ≠ [] ∧
    ∃ passed,
      (executeUnsafeDbtCommand (fun _ => ⟨true, none, none⟩)
        ["dbt", "run"]).fst = some passed ∧
      (((["dbt", "run"] : List String).head? = some "dbt" ∧
          passed = (["dbt", "run"] : List String).tail) ∨
       ((["dbt", "run"] : List String).head? ≠ some "dbt" ∧
          passed = ["dbt", "run"])) :=
  ⟨by decide,
   claim_C10_strip_leading_dbt (fun _ => ⟨true, none, none⟩) ["dbt", "run"]
     (by decide)⟩

end DbtFastApi
